import Mathlib

/-!
Shallow embedding of the Bedrock video-generation example scripts
(config.py, handle_errors.py, generate_video.py, simple_example.py,
generate_video_with_storyboard.py).

Remote calls are modelled by their outcomes: a status query is an
`Except PyExc StatusResponse` (either the parsed JSON body or the Python
exception the call raised), and a poller consumes a sequence of such
outcomes indexed by query number.  Wall-clock time is modelled by a
sequence `elapsed : Nat -> Nat` giving the value of
`time.time() - start_time` at the n-th call to `time.time()` after the
initial one.  `time.sleep` is modelled by counting sleep events; the
interval value itself has no observable effect in the embedding.
-/

namespace GenerateVideoBedrock

/-- Python exception values that can arise in these scripts: botocore
`ClientError` (with the vendor code and message from `e.response`),
`json.JSONDecodeError`, `ValueError`, the repository's own
`BedrockVideoGenerationError`, `TimeoutError`, `requests.HTTPError`
(carrying the HTTP status code), and a catch-all for plain `Exception`. -/
inductive PyExc where
  | clientError (code msg : Option String)
  | jsonDecodeError (msg : String)
  | valueError (msg : String)
  | bedrockError (msg : String)
  | timeoutError (msg : String)
  | httpError (code : Nat)
  | otherExc (msg : String)
deriving DecidableEq

/-- Python f-string rendering of an optional string: `None` prints as
the text "None". -/
def pyFmt : Option String → String
  | none => "None"
  | some s => s

/-- Rendering of `str(e)` for each modelled exception: for the message
carrying exceptions this is the message itself. -/
def pyStr : PyExc → String
  | .clientError code msg => "An error occurred (" ++ pyFmt code ++ "): " ++ pyFmt msg
  | .jsonDecodeError msg => msg
  | .valueError msg => msg
  | .bedrockError msg => msg
  | .timeoutError msg => msg
  | .httpError code => toString code ++ " Error"
  | .otherExc msg => msg

/-- The `handle_common_errors` decorator of handle_errors.py, applied to
the outcome of the wrapped call.  It catches `ClientError` and branches
on the vendor error code, catches `json.JSONDecodeError`, and re-wraps
every other exception as the catch-all kind; every branch raises
`BedrockVideoGenerationError` with the message built in the source. -/
def handle_common_errors {α : Type} (r : Except PyExc α) : Except PyExc α :=
  match r with
  | .ok a => .ok a
  | .error (.clientError code msg) =>
    if code = some "AccessDeniedException" then
      .error (.bedrockError ("액세스 권한 오류: " ++ pyFmt msg))
    else if code = some "ValidationException" then
      .error (.bedrockError ("유효성 검사 오류: " ++ pyFmt msg))
    else if code = some "ResourceNotFoundException" then
      .error (.bedrockError ("리소스를 찾을 수 없음: " ++ pyFmt msg))
    else if code = some "ThrottlingException" then
      .error (.bedrockError ("요청 제한 오류: " ++ pyFmt msg))
    else if code = some "ServiceQuotaExceededException" then
      .error (.bedrockError ("할당량 초과 오류: " ++ pyFmt msg))
    else
      .error (.bedrockError ("AWS API 오류: " ++ pyFmt code ++ " - " ++ pyFmt msg))
  | .error (.jsonDecodeError msg) =>
    .error (.bedrockError ("JSON 디코딩 오류: " ++ msg))
  | .error e =>
    .error (.bedrockError ("예상치 못한 오류: " ++ pyStr e))

/-- Parsed body of a status-check response: the `status` field and the
optional `errorMessage` field (both absent when the key is missing). -/
structure StatusResponse where
  status : Option String
  errorMessage : Option String
deriving DecidableEq

/-- Body of `BedrockVideoClient.check_job_status` inside its try block:
given the outcome of `invoke_model` plus `json.loads`, raise
`BedrockVideoGenerationError` when the parsed status is failed,
otherwise return the body; exceptions from the call are re-raised. -/
def check_job_status_inner (raw : Except PyExc StatusResponse) : Except PyExc StatusResponse :=
  match raw with
  | .ok body =>
    if body.status = some "failed" then
      .error (.bedrockError ("비디오 생성 작업 실패: " ++ body.errorMessage.getD "알 수 없는 오류"))
    else .ok body
  | .error e => .error e

/-- The decorated `BedrockVideoClient.check_job_status`: validates the
job id (Python falsy test on a string is emptiness), then runs the body
under the `handle_common_errors` decorator. -/
def check_job_status (job_id : String) (raw : Except PyExc StatusResponse) :
    Except PyExc StatusResponse :=
  handle_common_errors
    (if job_id = "" then .error (.valueError "유효한 작업 ID가 필요합니다")
     else check_job_status_inner raw)

deriving instance DecidableEq for Except

/-- Observable result of one poller run: the returned value or raised
exception, the number of status queries issued, and the number of
`time.sleep` calls performed. -/
structure WaitResult where
  outcome : Except PyExc StatusResponse
  queries : Nat
  sleeps : Nat
deriving DecidableEq

/-- Test for the repository's own exception class, mirroring
`isinstance(e, BedrockVideoGenerationError)`. -/
def isBedrockError : PyExc → Bool
  | .bedrockError _ => true
  | _ => false

/-- Loop of `BedrockVideoClient.wait_for_job_completion`, by remaining
attempts (`fuel = max_attempts - attempt`).  `t` counts `time.time()`
calls made after the initial one, `q` status queries, `s` sleeps.  When
fuel is exhausted the while condition short-circuits without reading the
clock and the final check reads it once; when the wall clock exceeds the
timeout at a condition check, the final check reads the clock once more.
Inside the loop: a completed status returns, failed and expired raise,
any other status sleeps and retries; an exception from the status query
is re-raised when it is a `BedrockVideoGenerationError` and otherwise
logged, slept on and retried. -/
def wait_loop (job_id : String) (raws : Nat → Except PyExc StatusResponse)
    (elapsed : Nat → Nat) (timeout max_attempts : Nat) :
    Nat → Nat → Nat → Nat → WaitResult
  | 0, t, q, s =>
    if timeout ≤ elapsed t then
      ⟨.error (.timeoutError ("작업 " ++ job_id ++ "이(가) 제한 시간 " ++ toString timeout
          ++ "초 내에 완료되지 않았습니다")), q, s⟩
    else
      ⟨.error (.timeoutError ("작업 " ++ job_id ++ "이(가) 최대 시도 횟수 " ++ toString max_attempts
          ++ "회 내에 완료되지 않았습니다")), q, s⟩
  | fuel+1, t, q, s =>
    if timeout ≤ elapsed t then
      if timeout ≤ elapsed (t+1) then
        ⟨.error (.timeoutError ("작업 " ++ job_id ++ "이(가) 제한 시간 " ++ toString timeout
            ++ "초 내에 완료되지 않았습니다")), q, s⟩
      else
        ⟨.error (.timeoutError ("작업 " ++ job_id ++ "이(가) 최대 시도 횟수 " ++ toString max_attempts
            ++ "회 내에 완료되지 않았습니다")), q, s⟩
    else
      match check_job_status job_id (raws q) with
      | .error e =>
        if isBedrockError e then ⟨.error e, q+1, s⟩
        else wait_loop job_id raws elapsed timeout max_attempts fuel (t+1) (q+1) (s+1)
      | .ok body =>
        if body.status = some "completed" then ⟨.ok body, q+1, s⟩
        else if body.status = some "failed" then
          ⟨.error (.bedrockError ("비디오 생성 작업 실패: "
              ++ body.errorMessage.getD "알 수 없는 오류")), q+1, s⟩
        else if body.status = some "expired" then
          ⟨.error (.bedrockError "비디오 생성 작업이 만료되었습니다"), q+1, s⟩
        else wait_loop job_id raws elapsed timeout max_attempts fuel (t+1) (q+1) (s+1)

/-- Body of `wait_for_job_completion` before its decorator: job id
validation followed by the polling loop started at attempt 0. -/
def wait_for_job_completion_body (job_id : String)
    (raws : Nat → Except PyExc StatusResponse) (elapsed : Nat → Nat)
    (interval max_attempts timeout : Nat) : WaitResult :=
  if job_id = "" then ⟨.error (.valueError "유효한 작업 ID가 필요합니다"), 0, 0⟩
  else wait_loop job_id raws elapsed timeout max_attempts max_attempts 0 0 0

/-- The decorated `BedrockVideoClient.wait_for_job_completion`: the
`handle_common_errors` decorator wraps whatever exception escapes the
body (including its own `BedrockVideoGenerationError` and
`TimeoutError`, both re-wrapped by the catch-all branch). -/
def wait_for_job_completion (job_id : String)
    (raws : Nat → Except PyExc StatusResponse) (elapsed : Nat → Nat)
    (interval max_attempts timeout : Nat) : WaitResult :=
  let r := wait_for_job_completion_body job_id raws elapsed interval max_attempts timeout
  ⟨handle_common_errors r.outcome, r.queries, r.sleeps⟩

/-- Loop of `poll_job_status` in generate_video.py (identical in
generate_video_with_storyboard.py), by remaining attempts.  There is no
try block: an exception from the status query propagates as-is.
Completed returns the body; failed or expired raises a plain
`Exception` whose message interpolates the status and the optional
vendor error message; any other status sleeps and retries. -/
def poll_loop (job_id : String) (raws : Nat → Except PyExc StatusResponse) :
    Nat → Nat → Nat → WaitResult
  | 0, q, s =>
    ⟨.error (.timeoutError ("Job " ++ job_id ++ " did not complete within the expected time")), q, s⟩
  | fuel+1, q, s =>
    match raws q with
    | .error e => ⟨.error e, q+1, s⟩
    | .ok body =>
      if body.status = some "completed" then ⟨.ok body, q+1, s⟩
      else if body.status = some "failed" ∨ body.status = some "expired" then
        ⟨.error (.otherExc ("Job " ++ job_id ++ " " ++ pyFmt body.status ++ ": "
            ++ body.errorMessage.getD "No error message")), q+1, s⟩
      else poll_loop job_id raws fuel (q+1) (s+1)

/-- The `poll_job_status` entry: starts the loop with `attempts = 0`. -/
def poll_job_status (job_id : String) (raws : Nat → Except PyExc StatusResponse)
    (interval max_attempts : Nat) : WaitResult :=
  poll_loop job_id raws max_attempts 0 0

/-- Transport response of `requests.get`: the HTTP status code and the
body bytes. -/
structure HttpResponse where
  status_code : Nat
  content : List Nat
deriving DecidableEq

/-- Behaviour of `response.raise_for_status()`: raises `HTTPError`
exactly for client-error and server-error status codes (400-599). -/
def raise_for_status (resp : HttpResponse) : Except PyExc Unit :=
  if 400 ≤ resp.status_code ∧ resp.status_code < 600 then
    .error (.httpError resp.status_code)
  else .ok ()

/-- The `download_content` function of generate_video.py (and, chunked
but observably identical, `download_video` of simple_example.py): the
status check runs before the file is opened, so on a non-success status
the filesystem (a map from path to written bytes) is untouched; on
success the full body is written to the destination path and the path is
returned. -/
def download_content (resp : HttpResponse) (output_path : String)
    (fs : String → Option (List Nat)) :
    Except PyExc String × (String → Option (List Nat)) :=
  match raise_for_status resp with
  | .error e => (.error e, fs)
  | .ok _ => (.ok output_path, fun p => if p = output_path then some resp.content else fs p)

/-- Request body built by the script-level `generate_video` in
generate_video.py and by `BedrockVideoClient.generate_video` in
handle_errors.py (optional keys rendered as `Option`). -/
structure TextToVideoBody where
  prompt : String
  seed : Nat
  duration : Nat
  aspectRatio : String
  jobType : String
  taskType : String
  imageQuality : String
  negativePrompt : Option String
  stylePreset : Option String
deriving DecidableEq

/-- Request body built by `generate_video_from_storyboard` in
generate_video_with_storyboard.py. -/
structure StoryboardBody where
  storyboard : List String
  seed : Nat
  duration : Nat
  aspectRatio : String
  jobType : String
  taskType : String
  imageQuality : String
deriving DecidableEq

/-- Body built by `generate_video` in generate_video.py.  The per-call
entropy `uuid_hash` stands for `abs(hash(str(uuid.uuid4())))`, the
non-negative hash of a freshly generated UUID; the script reduces it
modulo 2^32 for the seed. -/
def script_generate_video_body (prompt : String) (uuid_hash : Nat) : TextToVideoBody :=
  { prompt := prompt
    seed := uuid_hash % 2^32
    duration := 4000
    aspectRatio := "16:9"
    jobType := "video-generation"
    taskType := "text-to-video"
    imageQuality := "standard"
    negativePrompt := none
    stylePreset := none }

/-- Body built by `generate_video_from_storyboard` in
generate_video_with_storyboard.py, with the same per-call entropy
convention as `script_generate_video_body`. -/
def storyboard_video_body (encoded_images : List String) (uuid_hash : Nat) : StoryboardBody :=
  { storyboard := encoded_images
    seed := uuid_hash % 2^32
    duration := 6000
    aspectRatio := "16:9"
    jobType := "video-generation"
    taskType := "image-to-video"
    imageQuality := "standard" }

/-- Keyword arguments accepted by `BedrockVideoClient.generate_video`;
an absent key is `none`. -/
structure GenerateKwargs where
  seed : Option Nat := none
  duration : Option Nat := none
  aspect_ratio : Option String := none
  image_quality : Option String := none
  negative_prompt : Option String := none
  style_preset : Option String := none
deriving DecidableEq

/-- Body built by `BedrockVideoClient.generate_video` in
handle_errors.py: every generation parameter comes from `kwargs` with a
fixed default; in particular `kwargs.get('seed', 42)` defaults the seed
to the constant 42, with no per-call entropy source in the function. -/
def client_generate_video_body (prompt : String) (kwargs : GenerateKwargs) : TextToVideoBody :=
  { prompt := prompt
    seed := kwargs.seed.getD 42
    duration := kwargs.duration.getD 4000
    aspectRatio := kwargs.aspect_ratio.getD "16:9"
    jobType := "video-generation"
    taskType := "text-to-video"
    imageQuality := kwargs.image_quality.getD "standard"
    negativePrompt := kwargs.negative_prompt
    stylePreset := kwargs.style_preset }

/-- Parsed submission response: the optional `jobId` field. -/
structure SubmitResponse where
  jobId : Option String
deriving DecidableEq

/-- Job-id extraction shared by the three `main` functions:
`job_id = response.get('jobId'); if not job_id: raise ValueError(...)`.
The Python falsy test rejects both an absent key and an empty string. -/
def extract_job_id (resp : SubmitResponse) : Except PyExc String :=
  match resp.jobId with
  | none => .error (.valueError "응답에서 작업 ID를 찾을 수 없습니다")
  | some j =>
    if j = "" then .error (.valueError "응답에서 작업 ID를 찾을 수 없습니다")
    else .ok j

/-- Post-submission flow of `main` in generate_video.py: extract the
job id and, only when that succeeds, poll the job status with the
default interval 5 and max_attempts 60.  The second component counts
status queries performed. -/
def main_poll_flow (resp : SubmitResponse)
    (raws : Nat → Except PyExc StatusResponse) :
    Except PyExc StatusResponse × Nat :=
  match extract_job_id resp with
  | .error e => (.error e, 0)
  | .ok j =>
    let r := poll_job_status j raws 5 60
    (r.outcome, r.queries)

/-- Post-submission flow of `main` in simple_example.py: extract the
job id and, only when that succeeds, wait for completion with
interval 5, max_attempts 60, timeout 300.  The second component counts
status queries performed. -/
def simple_main_flow (resp : SubmitResponse)
    (raws : Nat → Except PyExc StatusResponse) (elapsed : Nat → Nat) :
    Except PyExc StatusResponse × Nat :=
  match extract_job_id resp with
  | .error e => (.error e, 0)
  | .ok j =>
    let r := wait_for_job_completion j raws elapsed 5 60 300
    (r.outcome, r.queries)

/-- Python falsy test on an environment value: unset (`None`) or the
empty string. -/
def pyFalsy : Option String → Bool
  | none => true
  | some s => s = ""

/-- The list `missing_vars` built by `validate_aws_credentials` in
config.py: required names appended in source order when their value is
falsy. -/
def missing_vars (akid skey : Option String) : List String :=
  (if pyFalsy akid then ["AWS_ACCESS_KEY_ID"] else [])
    ++ (if pyFalsy skey then ["AWS_SECRET_ACCESS_KEY"] else [])

/-- Observable behaviour of `validate_aws_credentials`: the returned
value (`ret`, a plain boolean in the source) and the warning lines
logged (`log`). -/
structure ValidateResult where
  ret : Bool
  log : List String
deriving DecidableEq

/-- The `validate_aws_credentials` function of config.py: returns False
after logging two warnings (the first listing the missing names joined
by a comma) when any required variable is missing, and True otherwise;
it contains no raise statement. -/
def validate_aws_credentials (akid skey : Option String) : ValidateResult :=
  let missing := missing_vars akid skey
  if missing.isEmpty then ⟨true, []⟩
  else
    ⟨false,
     ["다음 환경 변수가 설정되지 않았습니다: " ++ String.intercalate ", " missing,
      "AWS 자격 증명을 설정하려면 .env 파일을 만들거나 환경 변수를 직접 설정하세요."]⟩

/-- Unfolding lemma: the decorator passes successful results through. -/
theorem handle_common_errors_ok {α : Type} (a : α) :
    handle_common_errors (Except.ok a) = Except.ok a := rfl

/-- One iteration of the wait loop on a running status performs one
query and one sleep and continues. -/
theorem wait_loop_running_step (job_id : String)
    (raws : Nat → Except PyExc StatusResponse) (elapsed : Nat → Nat)
    (timeout max_attempts fuel t q s : Nat) (body : StatusResponse)
    (hid : job_id ≠ "") (hth : elapsed t < timeout)
    (hq : raws q = .ok body) (hst : body.status = some "running") :
    wait_loop job_id raws elapsed timeout max_attempts (fuel+1) t q s =
      wait_loop job_id raws elapsed timeout max_attempts fuel (t+1) (q+1) (s+1) := by
  simp only [wait_loop]
  rw [if_neg (Nat.not_le.mpr hth), hq]
  simp [check_job_status, check_job_status_inner, hid, hst, handle_common_errors]

/-- Skipping a block of `k` consecutive running statuses advances the
clock index, the query count and the sleep count by `k`. -/
theorem wait_loop_running_skip (job_id : String)
    (raws : Nat → Except PyExc StatusResponse) (bodies : Nat → StatusResponse)
    (elapsed : Nat → Nat) (timeout max_attempts : Nat)
    (hid : job_id ≠ "") (k : Nat) :
    ∀ (fuel t q s : Nat),
      (∀ i, i < k → raws (q + i) = .ok (bodies (q + i))) →
      (∀ i, i < k → (bodies (q + i)).status = some "running") →
      (∀ i, i < k → elapsed (t + i) < timeout) →
      wait_loop job_id raws elapsed timeout max_attempts (fuel + k) t q s =
        wait_loop job_id raws elapsed timeout max_attempts fuel (t + k) (q + k) (s + k) := by
  induction k with
  | zero => intro fuel t q s _ _ _; simp
  | succ k ih =>
    intro fuel t q s hraw hrun hth
    have hstep : wait_loop job_id raws elapsed timeout max_attempts ((fuel + k) + 1) t q s =
        wait_loop job_id raws elapsed timeout max_attempts (fuel + k) (t+1) (q+1) (s+1) :=
      wait_loop_running_step job_id raws elapsed timeout max_attempts (fuel + k) t q s
        (bodies q) hid
        (by simpa using hth 0 (by omega))
        (by simpa using hraw 0 (by omega))
        (by simpa using hrun 0 (by omega))
    have hrest := ih fuel (t+1) (q+1) (s+1)
      (by intro i hi
          have h := hraw (i+1) (by omega)
          have e : q + (i+1) = (q+1) + i := by omega
          rw [e] at h; exact h)
      (by intro i hi
          have h := hrun (i+1) (by omega)
          have e : q + (i+1) = (q+1) + i := by omega
          rw [e] at h; exact h)
      (by intro i hi
          have h := hth (i+1) (by omega)
          have e : t + (i+1) = (t+1) + i := by omega
          rw [e] at h; exact h)
    have e1 : (t+1) + k = t + (k+1) := by omega
    have e2 : (q+1) + k = q + (k+1) := by omega
    have e3 : (s+1) + k = s + (k+1) := by omega
    calc wait_loop job_id raws elapsed timeout max_attempts (fuel + (k+1)) t q s
        = wait_loop job_id raws elapsed timeout max_attempts (fuel + k) (t+1) (q+1) (s+1) :=
          hstep
      _ = wait_loop job_id raws elapsed timeout max_attempts fuel ((t+1) + k) ((q+1) + k)
            ((s+1) + k) := hrest
      _ = wait_loop job_id raws elapsed timeout max_attempts fuel (t + (k+1)) (q + (k+1))
            (s + (k+1)) := by rw [e1, e2, e3]

/-- Subtractive form of `wait_loop_running_skip`, convenient when the
fuel is given as a total attempt budget. -/
theorem wait_loop_running_skip_le (job_id : String)
    (raws : Nat → Except PyExc StatusResponse) (bodies : Nat → StatusResponse)
    (elapsed : Nat → Nat) (timeout max_attempts : Nat)
    (hid : job_id ≠ "") (k fuel t q s : Nat) (hk : k ≤ fuel)
    (hraw : ∀ i, i < k → raws (q + i) = .ok (bodies (q + i)))
    (hrun : ∀ i, i < k → (bodies (q + i)).status = some "running")
    (hth : ∀ i, i < k → elapsed (t + i) < timeout) :
    wait_loop job_id raws elapsed timeout max_attempts fuel t q s =
      wait_loop job_id raws elapsed timeout max_attempts (fuel - k) (t + k) (q + k) (s + k) := by
  obtain ⟨m, rfl⟩ : ∃ m, fuel = m + k := ⟨fuel - k, by omega⟩
  rw [wait_loop_running_skip job_id raws bodies elapsed timeout max_attempts hid k
    m t q s hraw hrun hth]
  congr 1
  omega

/-- A completed status returns the response body after one more query
and no further sleep. -/
theorem wait_loop_completed_step (job_id : String)
    (raws : Nat → Except PyExc StatusResponse) (elapsed : Nat → Nat)
    (timeout max_attempts fuel t q s : Nat) (body : StatusResponse)
    (hid : job_id ≠ "") (hth : elapsed t < timeout)
    (hq : raws q = .ok body) (hst : body.status = some "completed") :
    wait_loop job_id raws elapsed timeout max_attempts (fuel+1) t q s =
      ⟨.ok body, q+1, s⟩ := by
  simp only [wait_loop]
  rw [if_neg (Nat.not_le.mpr hth), hq]
  simp [check_job_status, check_job_status_inner, hid, hst, handle_common_errors]

/-- A failed status aborts the wait: the decorated `check_job_status`
already raised the wrapped domain error, which the loop re-raises. -/
theorem wait_loop_failed_step (job_id : String)
    (raws : Nat → Except PyExc StatusResponse) (elapsed : Nat → Nat)
    (timeout max_attempts fuel t q s : Nat) (body : StatusResponse)
    (hid : job_id ≠ "") (hth : elapsed t < timeout)
    (hq : raws q = .ok body) (hst : body.status = some "failed") :
    wait_loop job_id raws elapsed timeout max_attempts (fuel+1) t q s =
      ⟨.error (.bedrockError ("예상치 못한 오류: "
          ++ ("비디오 생성 작업 실패: " ++ body.errorMessage.getD "알 수 없는 오류"))), q+1, s⟩ := by
  simp only [wait_loop]
  rw [if_neg (Nat.not_le.mpr hth), hq]
  simp [check_job_status, check_job_status_inner, hid, hst, handle_common_errors,
    pyStr, isBedrockError]

/-- An expired status aborts the wait with the fixed expiration
message; the vendor error message is not consulted. -/
theorem wait_loop_expired_step (job_id : String)
    (raws : Nat → Except PyExc StatusResponse) (elapsed : Nat → Nat)
    (timeout max_attempts fuel t q s : Nat) (body : StatusResponse)
    (hid : job_id ≠ "") (hth : elapsed t < timeout)
    (hq : raws q = .ok body) (hst : body.status = some "expired") :
    wait_loop job_id raws elapsed timeout max_attempts (fuel+1) t q s =
      ⟨.error (.bedrockError "비디오 생성 작업이 만료되었습니다"), q+1, s⟩ := by
  simp only [wait_loop]
  rw [if_neg (Nat.not_le.mpr hth), hq]
  simp [check_job_status, check_job_status_inner, hid, hst, handle_common_errors,
    pyStr, isBedrockError]

/-- Exhausted attempt budget with the wall clock still under the
timeout raises the attempt-budget variant of the timeout error. -/
theorem wait_loop_budget_end (job_id : String)
    (raws : Nat → Except PyExc StatusResponse) (elapsed : Nat → Nat)
    (timeout max_attempts t q s : Nat) (hth : elapsed t < timeout) :
    wait_loop job_id raws elapsed timeout max_attempts 0 t q s =
      ⟨.error (.timeoutError ("작업 " ++ job_id ++ "이(가) 최대 시도 횟수 "
          ++ toString max_attempts ++ "회 내에 완료되지 않았습니다")), q, s⟩ := by
  simp only [wait_loop]
  rw [if_neg (Nat.not_le.mpr hth)]

/-- A wall clock at or beyond the timeout at a loop condition check
raises the wall-clock variant of the timeout error. -/
theorem wait_loop_wallclock_end (job_id : String)
    (raws : Nat → Except PyExc StatusResponse) (elapsed : Nat → Nat)
    (timeout max_attempts fuel t q s : Nat)
    (ht0 : timeout ≤ elapsed t) (ht1 : timeout ≤ elapsed (t+1)) :
    wait_loop job_id raws elapsed timeout max_attempts (fuel+1) t q s =
      ⟨.error (.timeoutError ("작업 " ++ job_id ++ "이(가) 제한 시간 "
          ++ toString timeout ++ "초 내에 완료되지 않았습니다")), q, s⟩ := by
  simp only [wait_loop]
  rw [if_pos ht0, if_pos ht1]

/-- One iteration of `poll_job_status` on a running status. -/
theorem poll_loop_running_step (job_id : String)
    (raws : Nat → Except PyExc StatusResponse) (fuel q s : Nat)
    (body : StatusResponse)
    (hq : raws q = .ok body) (hst : body.status = some "running") :
    poll_loop job_id raws (fuel+1) q s = poll_loop job_id raws fuel (q+1) (s+1) := by
  simp only [poll_loop]
  rw [hq]
  simp [hst]

/-- Skipping a block of `k` consecutive running statuses in
`poll_job_status`. -/
theorem poll_loop_running_skip (job_id : String)
    (raws : Nat → Except PyExc StatusResponse) (bodies : Nat → StatusResponse)
    (k : Nat) :
    ∀ (fuel q s : Nat),
      (∀ i, i < k → raws (q + i) = .ok (bodies (q + i))) →
      (∀ i, i < k → (bodies (q + i)).status = some "running") →
      poll_loop job_id raws (fuel + k) q s = poll_loop job_id raws fuel (q + k) (s + k) := by
  induction k with
  | zero => intro fuel q s _ _; simp
  | succ k ih =>
    intro fuel q s hraw hrun
    have hstep : poll_loop job_id raws ((fuel + k) + 1) q s =
        poll_loop job_id raws (fuel + k) (q+1) (s+1) :=
      poll_loop_running_step job_id raws (fuel + k) q s (bodies q)
        (by simpa using hraw 0 (by omega))
        (by simpa using hrun 0 (by omega))
    have hrest := ih fuel (q+1) (s+1)
      (by intro i hi
          have h := hraw (i+1) (by omega)
          have e : q + (i+1) = (q+1) + i := by omega
          rw [e] at h; exact h)
      (by intro i hi
          have h := hrun (i+1) (by omega)
          have e : q + (i+1) = (q+1) + i := by omega
          rw [e] at h; exact h)
    have e2 : (q+1) + k = q + (k+1) := by omega
    have e3 : (s+1) + k = s + (k+1) := by omega
    calc poll_loop job_id raws (fuel + (k+1)) q s
        = poll_loop job_id raws (fuel + k) (q+1) (s+1) := hstep
      _ = poll_loop job_id raws fuel ((q+1) + k) ((s+1) + k) := hrest
      _ = poll_loop job_id raws fuel (q + (k+1)) (s + (k+1)) := by rw [e2, e3]

/-- Subtractive form of `poll_loop_running_skip`. -/
theorem poll_loop_running_skip_le (job_id : String)
    (raws : Nat → Except PyExc StatusResponse) (bodies : Nat → StatusResponse)
    (k fuel q s : Nat) (hk : k ≤ fuel)
    (hraw : ∀ i, i < k → raws (q + i) = .ok (bodies (q + i)))
    (hrun : ∀ i, i < k → (bodies (q + i)).status = some "running") :
    poll_loop job_id raws fuel q s = poll_loop job_id raws (fuel - k) (q + k) (s + k) := by
  obtain ⟨m, rfl⟩ : ∃ m, fuel = m + k := ⟨fuel - k, by omega⟩
  rw [poll_loop_running_skip job_id raws bodies k m q s hraw hrun]
  congr 1
  omega

/-- A completed status returns the body from `poll_job_status`. -/
theorem poll_loop_completed_step (job_id : String)
    (raws : Nat → Except PyExc StatusResponse) (fuel q s : Nat)
    (body : StatusResponse)
    (hq : raws q = .ok body) (hst : body.status = some "completed") :
    poll_loop job_id raws (fuel+1) q s = ⟨.ok body, q+1, s⟩ := by
  simp only [poll_loop]
  rw [hq]
  simp [hst]

/-- A failed or expired status raises the plain exception built by
`poll_job_status`, interpolating the status text and the vendor error
message. -/
theorem poll_loop_terminal_step (job_id : String)
    (raws : Nat → Except PyExc StatusResponse) (fuel q s : Nat)
    (body : StatusResponse) (st : String)
    (hq : raws q = .ok body) (hst : body.status = some st)
    (hterm : st = "failed" ∨ st = "expired") :
    poll_loop job_id raws (fuel+1) q s =
      ⟨.error (.otherExc ("Job " ++ job_id ++ " " ++ st ++ ": "
          ++ body.errorMessage.getD "No error message")), q+1, s⟩ := by
  simp only [poll_loop]
  rw [hq]
  rcases hterm with h | h <;> subst h <;> simp [hst, pyFmt]

/-- C1: for every status sequence whose first two queries return
running and whose third returns completed, both pollers
(`wait_for_job_completion` with the wall clock below the timeout at
every check, and `poll_job_status`), run with any maxAttempts at least
3, return the completed response after exactly 3 status queries and
exactly 2 sleeps. -/
theorem c1_poller_completed_after_three_queries
    (job_id : String) (raws : Nat → Except PyExc StatusResponse)
    (bodies : Nat → StatusResponse) (elapsed : Nat → Nat)
    (interval max_attempts timeout : Nat)
    (hid : job_id ≠ "") (hmax : 3 ≤ max_attempts)
    (hraw : ∀ i, i < 3 → raws i = .ok (bodies i))
    (hrun : ∀ i, i < 2 → (bodies i).status = some "running")
    (hcomp : (bodies 2).status = some "completed")
    (hth : ∀ i, i < 3 → elapsed i < timeout) :
    wait_for_job_completion job_id raws elapsed interval max_attempts timeout =
        ⟨.ok (bodies 2), 3, 2⟩ ∧
      poll_job_status job_id raws interval max_attempts = ⟨.ok (bodies 2), 3, 2⟩ := by
  have hbody : wait_for_job_completion_body job_id raws elapsed interval max_attempts timeout =
      ⟨.ok (bodies 2), 3, 2⟩ := by
    unfold wait_for_job_completion_body
    rw [if_neg hid]
    rw [wait_loop_running_skip_le job_id raws bodies elapsed timeout max_attempts hid
      2 max_attempts 0 0 0 (by omega)
      (fun i hi => by simpa using hraw i (by omega))
      (fun i hi => by simpa using hrun i (by omega))
      (fun i hi => by simpa using hth i (by omega))]
    obtain ⟨m, hm⟩ : ∃ m, max_attempts - 2 = m + 1 := ⟨max_attempts - 3, by omega⟩
    rw [hm]
    rw [wait_loop_completed_step job_id raws elapsed timeout max_attempts m (0+2) (0+2) (0+2)
      (bodies 2) hid (by simpa using hth 2 (by omega)) (by simpa using hraw 2 (by omega)) hcomp]
  constructor
  · simp only [wait_for_job_completion]
    rw [hbody]
    rfl
  · unfold poll_job_status
    rw [poll_loop_running_skip_le job_id raws bodies 2 max_attempts 0 0 (by omega)
      (fun i hi => by simpa using hraw i (by omega))
      (fun i hi => by simpa using hrun i (by omega))]
    obtain ⟨m, hm⟩ : ∃ m, max_attempts - 2 = m + 1 := ⟨max_attempts - 3, by omega⟩
    rw [hm]
    rw [poll_loop_completed_step job_id raws m (0+2) (0+2) (bodies 2)
      (by simpa using hraw 2 (by omega)) hcomp]

/-- Witness for C1 at a concrete run: statuses running, running,
completed, zero elapsed time, interval 5, maxAttempts 60, timeout 300. -/
theorem c1_witness :
    wait_for_job_completion "job-1"
        (fun k => .ok ⟨some (if k < 2 then "running" else "completed"), none⟩)
        (fun _ => 0) 5 60 300 =
      ⟨.ok ⟨some "completed", none⟩, 3, 2⟩ ∧
    poll_job_status "job-1"
        (fun k => .ok ⟨some (if k < 2 then "running" else "completed"), none⟩) 5 60 =
      ⟨.ok ⟨some "completed", none⟩, 3, 2⟩ :=
  c1_poller_completed_after_three_queries "job-1"
    (fun k => .ok ⟨some (if k < 2 then "running" else "completed"), none⟩)
    (fun k => ⟨some (if k < 2 then "running" else "completed"), none⟩)
    (fun _ => 0) 5 60 300
    (by decide) (by omega)
    (fun i _ => rfl)
    (fun i hi => by simp [hi])
    rfl
    (fun i _ => by show (0:Nat) < 300; omega)

/-- C2 (amended): when the first k status queries return running and
query k returns failed or expired (k below the attempt budget, wall
clock under the timeout), both pollers raise the job-terminated domain
error immediately after k+1 total queries and k sleeps (0 sleeps when
it is the first query) and perform no further status queries; the error
carries the vendor error message in every case except
`wait_for_job_completion` on expired, which raises a fixed expiration
message without the vendor message. -/
theorem c2_terminal_status_aborts_poll
    (job_id : String) (raws : Nat → Except PyExc StatusResponse)
    (bodies : Nat → StatusResponse) (elapsed : Nat → Nat)
    (interval max_attempts timeout k : Nat)
    (hid : job_id ≠ "") (hk : k < max_attempts)
    (hraw : ∀ i, i ≤ k → raws i = .ok (bodies i))
    (hrun : ∀ i, i < k → (bodies i).status = some "running")
    (hth : ∀ i, i ≤ k → elapsed i < timeout) :
    ((bodies k).status = some "failed" →
      wait_for_job_completion job_id raws elapsed interval max_attempts timeout =
        ⟨.error (.bedrockError ("예상치 못한 오류: " ++ ("예상치 못한 오류: "
            ++ ("비디오 생성 작업 실패: " ++ (bodies k).errorMessage.getD "알 수 없는 오류")))),
         k+1, k⟩ ∧
      poll_job_status job_id raws interval max_attempts =
        ⟨.error (.otherExc ("Job " ++ job_id ++ " " ++ "failed" ++ ": "
            ++ (bodies k).errorMessage.getD "No error message")), k+1, k⟩) ∧
    ((bodies k).status = some "expired" →
      wait_for_job_completion job_id raws elapsed interval max_attempts timeout =
        ⟨.error (.bedrockError ("예상치 못한 오류: " ++ "비디오 생성 작업이 만료되었습니다")),
         k+1, k⟩ ∧
      poll_job_status job_id raws interval max_attempts =
        ⟨.error (.otherExc ("Job " ++ job_id ++ " " ++ "expired" ++ ": "
            ++ (bodies k).errorMessage.getD "No error message")), k+1, k⟩) := by
  obtain ⟨m, hm⟩ : ∃ m, max_attempts - k = m + 1 := ⟨max_attempts - k - 1, by omega⟩
  have hskipw : wait_loop job_id raws elapsed timeout max_attempts max_attempts 0 0 0 =
      wait_loop job_id raws elapsed timeout max_attempts (m+1) (0+k) (0+k) (0+k) := by
    rw [wait_loop_running_skip_le job_id raws bodies elapsed timeout max_attempts hid
      k max_attempts 0 0 0 (by omega)
      (fun i hi => by simpa using hraw i (by omega))
      (fun i hi => by simpa using hrun i (by omega))
      (fun i hi => by simpa using hth i (by omega))]
    rw [hm]
  have hskipp : poll_loop job_id raws max_attempts 0 0 =
      poll_loop job_id raws (m+1) (0+k) (0+k) := by
    rw [poll_loop_running_skip_le job_id raws bodies k max_attempts 0 0 (by omega)
      (fun i hi => by simpa using hraw i (by omega))
      (fun i hi => by simpa using hrun i (by omega))]
    rw [hm]
  constructor
  · intro hst
    constructor
    · simp only [wait_for_job_completion]
      unfold wait_for_job_completion_body
      rw [if_neg hid, hskipw]
      rw [wait_loop_failed_step job_id raws elapsed timeout max_attempts m (0+k) (0+k) (0+k)
        (bodies k) hid (by simpa using hth k (by omega)) (by simpa using hraw k (by omega)) hst]
      simp [handle_common_errors, pyStr]
    · unfold poll_job_status
      rw [hskipp]
      rw [poll_loop_terminal_step job_id raws m (0+k) (0+k) (bodies k) "failed"
        (by simpa using hraw k (by omega)) hst (Or.inl rfl)]
      simp
  · intro hst
    constructor
    · simp only [wait_for_job_completion]
      unfold wait_for_job_completion_body
      rw [if_neg hid, hskipw]
      rw [wait_loop_expired_step job_id raws elapsed timeout max_attempts m (0+k) (0+k) (0+k)
        (bodies k) hid (by simpa using hth k (by omega)) (by simpa using hraw k (by omega)) hst]
      simp [handle_common_errors, pyStr]
    · unfold poll_job_status
      rw [hskipp]
      rw [poll_loop_terminal_step job_id raws m (0+k) (0+k) (bodies k) "expired"
        (by simpa using hraw k (by omega)) hst (Or.inr rfl)]
      simp

/-- Counterexample for C2 as stated: with status expired on the first
query, `wait_for_job_completion` raises the same fixed expiration
message whatever the vendor error message is — the error does not carry
the vendor error message. -/
theorem c2_counterexample :
    wait_for_job_completion "job-1"
        (fun _ => .ok ⟨some "expired", some "vendor message A"⟩) (fun _ => 0) 5 60 300 =
      ⟨.error (.bedrockError "예상치 못한 오류: 비디오 생성 작업이 만료되었습니다"), 1, 0⟩ ∧
    wait_for_job_completion "job-1"
        (fun _ => .ok ⟨some "expired", some "vendor message B"⟩) (fun _ => 0) 5 60 300 =
      ⟨.error (.bedrockError "예상치 못한 오류: 비디오 생성 작업이 만료되었습니다"), 1, 0⟩ :=
  ⟨rfl, rfl⟩

/-- Witness for C2 (amended) at a concrete run: status failed on the
first query, vendor message "boom". -/
theorem c2_witness :
    wait_for_job_completion "job-1"
        (fun _ => .ok ⟨some "failed", some "boom"⟩) (fun _ => 0) 5 60 300 =
      ⟨.error (.bedrockError "예상치 못한 오류: 예상치 못한 오류: 비디오 생성 작업 실패: boom"),
       1, 0⟩ ∧
    poll_job_status "job-1" (fun _ => .ok ⟨some "failed", some "boom"⟩) 5 60 =
      ⟨.error (.otherExc "Job job-1 failed: boom"), 1, 0⟩ :=
  (c2_terminal_status_aborts_poll "job-1"
    (fun _ => .ok ⟨some "failed", some "boom"⟩)
    (fun _ => ⟨some "failed", some "boom"⟩) (fun _ => 0) 5 60 300 0
    (by decide) (by omega)
    (fun i _ => rfl)
    (fun i hi => absurd hi (Nat.not_lt_zero i))
    (fun i _ => by show (0:Nat) < 300; omega)).1 rfl

/-- C3: with maxAttempts = 3 and a status query that always returns
running, `wait_for_job_completion` (wall clock under the timeout) and
`poll_job_status` raise the timeout error after exactly 3 status
queries; exceeding the wall-clock timeout and exceeding the attempt
budget both raise the same error kind (`TimeoutError` in the body,
re-wrapped uniformly by the decorator), distinguished only by the
message text. -/
theorem c3_poller_timeout_after_three_queries
    (job_id : String) (raws : Nat → Except PyExc StatusResponse)
    (bodies : Nat → StatusResponse) (elapsed elapsedOver : Nat → Nat)
    (interval timeout max_attempts2 : Nat)
    (hid : job_id ≠ "")
    (hraw : ∀ i, i < 3 → raws i = .ok (bodies i))
    (hrun : ∀ i, i < 3 → (bodies i).status = some "running")
    (hth : ∀ i, i ≤ 3 → elapsed i < timeout)
    (hover0 : timeout ≤ elapsedOver 0) (hover1 : timeout ≤ elapsedOver (0+1))
    (hm2 : 1 ≤ max_attempts2) :
    wait_for_job_completion_body job_id raws elapsed interval 3 timeout =
        ⟨.error (.timeoutError ("작업 " ++ job_id ++ "이(가) 최대 시도 횟수 "
            ++ toString 3 ++ "회 내에 완료되지 않았습니다")), 3, 3⟩ ∧
      wait_for_job_completion job_id raws elapsed interval 3 timeout =
        ⟨.error (.bedrockError ("예상치 못한 오류: " ++ ("작업 " ++ job_id
            ++ "이(가) 최대 시도 횟수 " ++ toString 3 ++ "회 내에 완료되지 않았습니다"))), 3, 3⟩ ∧
      wait_for_job_completion_body job_id raws elapsedOver interval max_attempts2 timeout =
        ⟨.error (.timeoutError ("작업 " ++ job_id ++ "이(가) 제한 시간 "
            ++ toString timeout ++ "초 내에 완료되지 않았습니다")), 0, 0⟩ ∧
      poll_job_status job_id raws interval 3 =
        ⟨.error (.timeoutError ("Job " ++ job_id
            ++ " did not complete within the expected time")), 3, 3⟩ := by
  have hbudget : wait_for_job_completion_body job_id raws elapsed interval 3 timeout =
      ⟨.error (.timeoutError ("작업 " ++ job_id ++ "이(가) 최대 시도 횟수 "
          ++ toString 3 ++ "회 내에 완료되지 않았습니다")), 3, 3⟩ := by
    unfold wait_for_job_completion_body
    rw [if_neg hid]
    rw [wait_loop_running_skip_le job_id raws bodies elapsed timeout 3 hid
      3 3 0 0 0 (by omega)
      (fun i hi => by simpa using hraw i (by omega))
      (fun i hi => by simpa using hrun i (by omega))
      (fun i hi => by simpa using hth i (by omega))]
    have h0 : (3:Nat) - 3 = 0 := rfl
    rw [h0]
    rw [wait_loop_budget_end job_id raws elapsed timeout 3 (0+3) (0+3) (0+3)
      (by simpa using hth 3 (by omega))]
  refine ⟨hbudget, ?_, ?_, ?_⟩
  · simp only [wait_for_job_completion]
    rw [hbudget]
    simp [handle_common_errors, pyStr]
  · unfold wait_for_job_completion_body
    rw [if_neg hid]
    obtain ⟨m, hm⟩ : ∃ m, max_attempts2 = m + 1 := ⟨max_attempts2 - 1, by omega⟩
    rw [hm]
    rw [wait_loop_wallclock_end job_id raws elapsedOver timeout (m+1) m 0 0 0 hover0 hover1]
  · unfold poll_job_status
    rw [poll_loop_running_skip_le job_id raws bodies 3 3 0 0 (by omega)
      (fun i hi => by simpa using hraw i (by omega))
      (fun i hi => by simpa using hrun i (by omega))]
    have h0 : (3:Nat) - 3 = 0 := rfl
    rw [h0]
    simp only [poll_loop]

/-- Witness for C3 at a concrete run: always running, zero elapsed time
for the budget case and an immediately exceeded wall clock for the
wall-clock case. -/
theorem c3_witness :
    wait_for_job_completion_body "job-1" (fun _ => .ok ⟨some "running", none⟩)
        (fun _ => 0) 5 3 300 =
      ⟨.error (.timeoutError "작업 job-1이(가) 최대 시도 횟수 3회 내에 완료되지 않았습니다"), 3, 3⟩ ∧
    wait_for_job_completion "job-1" (fun _ => .ok ⟨some "running", none⟩)
        (fun _ => 0) 5 3 300 =
      ⟨.error (.bedrockError
          "예상치 못한 오류: 작업 job-1이(가) 최대 시도 횟수 3회 내에 완료되지 않았습니다"), 3, 3⟩ ∧
    wait_for_job_completion_body "job-1" (fun _ => .ok ⟨some "running", none⟩)
        (fun _ => 300) 5 60 300 =
      ⟨.error (.timeoutError "작업 job-1이(가) 제한 시간 300초 내에 완료되지 않았습니다"), 0, 0⟩ ∧
    poll_job_status "job-1" (fun _ => .ok ⟨some "running", none⟩) 5 3 =
      ⟨.error (.timeoutError "Job job-1 did not complete within the expected time"), 3, 3⟩ :=
  c3_poller_timeout_after_three_queries "job-1" (fun _ => .ok ⟨some "running", none⟩)
    (fun _ => ⟨some "running", none⟩) (fun _ => 0) (fun _ => 300) 5 300 60
    (by decide)
    (fun i _ => rfl)
    (fun i _ => rfl)
    (fun i _ => by show (0:Nat) < 300; omega)
    (by show (300:Nat) ≤ 300; omega) (by show (300:Nat) ≤ 300; omega) (by omega)

/-- C4 (code bug): a transient transport error on the first status
query aborts both pollers after exactly 1 query and 0 sleeps, instead
of being retried after the interval.  In `wait_for_job_completion` the
decorated `check_job_status` turns the `ClientError` into a
`BedrockVideoGenerationError`, which the except-block re-raises (its
transient-retry branch is unreachable); in `poll_job_status` the
exception is not caught at all. -/
theorem c4_transient_error_aborts_wait :
    wait_for_job_completion "job-1"
        (fun _ => .error (.clientError (some "ThrottlingException") (some "Rate exceeded")))
        (fun _ => 0) 5 60 300 =
      ⟨.error (.bedrockError "예상치 못한 오류: 요청 제한 오류: Rate exceeded"), 1, 0⟩ ∧
    poll_job_status "job-1"
        (fun _ => .error (.clientError (some "ThrottlingException") (some "Rate exceeded"))) 5 60 =
      ⟨.error (.clientError (some "ThrottlingException") (some "Rate exceeded")), 1, 0⟩ :=
  ⟨rfl, rfl⟩

/-- C5: the error classifier maps each recognized vendor code to its
own taxonomy tag (the message prefix, injective over the recognized
set) with the vendor message preserved, maps an unrecognized code to
the generic service-error tag preserving both code and message, maps a
JSON decode failure to the decode kind, and maps every other exception
to the catch-all kind. -/
theorem c5_error_classifier_taxonomy (msg : String) :
    (handle_common_errors (Except.error (.clientError (some "AccessDeniedException") (some msg)) :
        Except PyExc Unit) = .error (.bedrockError ("액세스 권한 오류: " ++ msg))) ∧
    (handle_common_errors (Except.error (.clientError (some "ValidationException") (some msg)) :
        Except PyExc Unit) = .error (.bedrockError ("유효성 검사 오류: " ++ msg))) ∧
    (handle_common_errors (Except.error (.clientError (some "ResourceNotFoundException") (some msg)) :
        Except PyExc Unit) = .error (.bedrockError ("리소스를 찾을 수 없음: " ++ msg))) ∧
    (handle_common_errors (Except.error (.clientError (some "ThrottlingException") (some msg)) :
        Except PyExc Unit) = .error (.bedrockError ("요청 제한 오류: " ++ msg))) ∧
    (handle_common_errors (Except.error (.clientError (some "ServiceQuotaExceededException") (some msg)) :
        Except PyExc Unit) = .error (.bedrockError ("할당량 초과 오류: " ++ msg))) ∧
    (∀ code : String,
      code ∉ (["AccessDeniedException", "ValidationException", "ResourceNotFoundException",
        "ThrottlingException", "ServiceQuotaExceededException"] : List String) →
      handle_common_errors (Except.error (.clientError (some code) (some msg)) : Except PyExc Unit)
        = .error (.bedrockError ("AWS API 오류: " ++ code ++ " - " ++ msg))) ∧
    (handle_common_errors (Except.error (.jsonDecodeError msg) : Except PyExc Unit)
        = .error (.bedrockError ("JSON 디코딩 오류: " ++ msg))) ∧
    (handle_common_errors (Except.error (.valueError msg) : Except PyExc Unit)
        = .error (.bedrockError ("예상치 못한 오류: " ++ msg))) ∧
    (handle_common_errors (Except.error (.timeoutError msg) : Except PyExc Unit)
        = .error (.bedrockError ("예상치 못한 오류: " ++ msg))) ∧
    (handle_common_errors (Except.error (.bedrockError msg) : Except PyExc Unit)
        = .error (.bedrockError ("예상치 못한 오류: " ++ msg))) ∧
    (handle_common_errors (Except.error (.otherExc msg) : Except PyExc Unit)
        = .error (.bedrockError ("예상치 못한 오류: " ++ msg))) ∧
    (["액세스 권한 오류: ", "유효성 검사 오류: ", "리소스를 찾을 수 없음: ", "요청 제한 오류: ",
      "할당량 초과 오류: ", "AWS API 오류: ", "JSON 디코딩 오류: ", "예상치 못한 오류: "] :
        List String).Nodup := by
  refine ⟨rfl, rfl, rfl, rfl, rfl, ?_, rfl, rfl, rfl, rfl, rfl, by decide⟩
  intro code hcode
  simp only [List.mem_cons, List.not_mem_nil, or_false, not_or] at hcode
  obtain ⟨h1, h2, h3, h4, h5⟩ := hcode
  simp [handle_common_errors, pyFmt, h1, h2, h3, h4, h5]

/-- Witness for C5 at a concrete unrecognized vendor code. -/
theorem c5_witness :
    handle_common_errors (Except.error (.clientError (some "InternalServerException") (some "boom")) :
        Except PyExc Unit)
      = .error (.bedrockError ("AWS API 오류: " ++ "InternalServerException" ++ " - " ++ "boom")) :=
  (c5_error_classifier_taxonomy "boom").2.2.2.2.2.1 "InternalServerException" (by decide)

/-- C6: when the submission response carries no jobId field, both
entry-point flows raise the missing-job-id ValueError and perform zero
status queries. -/
theorem c6_missing_job_id_no_poll
    (resp : SubmitResponse) (raws : Nat → Except PyExc StatusResponse) (elapsed : Nat → Nat)
    (h : resp.jobId = none) :
    main_poll_flow resp raws = (.error (.valueError "응답에서 작업 ID를 찾을 수 없습니다"), 0) ∧
    simple_main_flow resp raws elapsed =
      (.error (.valueError "응답에서 작업 ID를 찾을 수 없습니다"), 0) := by
  constructor <;> simp [main_poll_flow, simple_main_flow, extract_job_id, h]

/-- Witness for C6 at a concrete jobId-less response. -/
theorem c6_witness :
    main_poll_flow ⟨none⟩ (fun _ => .ok ⟨some "running", none⟩) =
      (.error (.valueError "응답에서 작업 ID를 찾을 수 없습니다"), 0) ∧
    simple_main_flow ⟨none⟩ (fun _ => .ok ⟨some "running", none⟩) (fun _ => 0) =
      (.error (.valueError "응답에서 작업 ID를 찾을 수 없습니다"), 0) :=
  c6_missing_job_id_no_poll ⟨none⟩ (fun _ => .ok ⟨some "running", none⟩) (fun _ => 0) rfl

/-- C7: a non-success transport status (400-599) makes the downloader
raise before the file is opened, leaving the filesystem unchanged; a
success status writes the full body at the destination path and
returns the path. -/
theorem c7_download_checks_status_before_write
    (resp : HttpResponse) (output_path : String) (fs : String → Option (List Nat)) :
    (400 ≤ resp.status_code → resp.status_code < 600 →
      (download_content resp output_path fs).1 = .error (.httpError resp.status_code) ∧
      (download_content resp output_path fs).2 = fs) ∧
    (resp.status_code < 400 →
      (download_content resp output_path fs).1 = .ok output_path ∧
      (download_content resp output_path fs).2 output_path = some resp.content) := by
  constructor
  · intro h1 h2
    have hc : 400 ≤ resp.status_code ∧ resp.status_code < 600 := ⟨h1, h2⟩
    simp [download_content, raise_for_status, hc]
  · intro h
    have hc : ¬ (400 ≤ resp.status_code ∧ resp.status_code < 600) := by omega
    simp [download_content, raise_for_status, hc]

/-- Witness for C7: a 404 response leaves the (empty) filesystem
untouched; a 200 response writes the body. -/
theorem c7_witness :
    (download_content ⟨404, [1, 2, 3]⟩ "video.mp4" (fun _ => none)).1 =
        .error (.httpError 404) ∧
    (download_content ⟨404, [1, 2, 3]⟩ "video.mp4" (fun _ => none)).2 =
        (fun _ => none) ∧
    (download_content ⟨200, [7, 8]⟩ "video.mp4" (fun _ => none)).1 = .ok "video.mp4" ∧
    (download_content ⟨200, [7, 8]⟩ "video.mp4" (fun _ => none)).2 "video.mp4" = some [7, 8] :=
  ⟨((c7_download_checks_status_before_write ⟨404, [1, 2, 3]⟩ "video.mp4" (fun _ => none)).1
      (by decide) (by decide)).1,
   ((c7_download_checks_status_before_write ⟨404, [1, 2, 3]⟩ "video.mp4" (fun _ => none)).1
      (by decide) (by decide)).2,
   ((c7_download_checks_status_before_write ⟨200, [7, 8]⟩ "video.mp4" (fun _ => none)).2
      (by decide)).1,
   ((c7_download_checks_status_before_write ⟨200, [7, 8]⟩ "video.mp4" (fun _ => none)).2
      (by decide)).2⟩

/-- Counterexample for C8 as stated: in
`BedrockVideoClient.generate_video` a call without an explicit seed
places the fixed constant 42 in the request body — the function has no
per-call entropy source at all, so the seed is not freshly generated. -/
theorem c8_counterexample :
    (client_generate_video_body "A beautiful sunset over the ocean" {}).seed = 42 ∧
    (client_generate_video_body "A cat playing with a ball" {}).seed = 42 :=
  ⟨rfl, rfl⟩

/-- C8 (amended): the script-level submissions (generate_video.py and
generate_video_with_storyboard.py) derive the seed from per-call
entropy (the hash of a fresh UUID, reduced mod 2^32), so it varies with
the entropy; `BedrockVideoClient.generate_video` instead uses the
caller-supplied seed or the fixed default 42. -/
theorem c8_seed_generation
    (prompt : String) (images : List String) (uuid_hash : Nat) (kwargs : GenerateKwargs) :
    (script_generate_video_body prompt uuid_hash).seed = uuid_hash % 2^32 ∧
    (storyboard_video_body images uuid_hash).seed = uuid_hash % 2^32 ∧
    (script_generate_video_body prompt 0).seed ≠ (script_generate_video_body prompt 1).seed ∧
    (client_generate_video_body prompt kwargs).seed = kwargs.seed.getD 42 := by
  refine ⟨rfl, rfl, ?_, rfl⟩
  show (0 % 2^32 : Nat) ≠ 1 % 2^32
  decide

/-- Counterexample for C9 as stated: two credential states with
different missing-name lists produce identical returned values, so the
boolean return of `validate_aws_credentials` does not carry the list of
missing required names (the list appears only in the warning log). -/
theorem c9_counterexample :
    (validate_aws_credentials none (some "secret-key")).ret =
        (validate_aws_credentials (some "access-id") none).ret ∧
      missing_vars none (some "secret-key") ≠ missing_vars (some "access-id") none :=
  ⟨rfl, by decide⟩

/-- C9 (amended): `validate_aws_credentials` returns only a boolean,
true exactly when no required variable is missing; it never raises (it
is a total function of the credential state); the missing names are
reported via the warning log, whose first line lists them joined by
commas. -/
theorem c9_validate_returns_bool_logs_missing (akid skey : Option String) :
    (validate_aws_credentials akid skey).ret = (missing_vars akid skey).isEmpty ∧
    (validate_aws_credentials akid skey).log =
      (if (missing_vars akid skey).isEmpty then []
       else ["다음 환경 변수가 설정되지 않았습니다: "
               ++ String.intercalate ", " (missing_vars akid skey),
             "AWS 자격 증명을 설정하려면 .env 파일을 만들거나 환경 변수를 직접 설정하세요."]) := by
  unfold validate_aws_credentials
  by_cases h : (missing_vars akid skey).isEmpty <;> simp [h]

/-- C10: for a well-formed status response, the decorated
`check_job_status` raises the domain error exactly when the status is
failed (the raised message wraps the vendor error message); any other
status — expired in particular — is returned unchanged, so expired is
converted to an error only by the surrounding poller. -/
theorem c10_check_job_status_raises_iff_failed
    (job_id : String) (body : StatusResponse) (hid : job_id ≠ "") :
    (body.status = some "failed" →
      check_job_status job_id (.ok body) =
        .error (.bedrockError ("예상치 못한 오류: "
            ++ ("비디오 생성 작업 실패: " ++ body.errorMessage.getD "알 수 없는 오류")))) ∧
    (body.status ≠ some "failed" → check_job_status job_id (.ok body) = .ok body) ∧
    ((∃ e, check_job_status job_id (.ok body) = .error e) ↔ body.status = some "failed") ∧
    (body.status = some "expired" → check_job_status job_id (.ok body) = .ok body) := by
  have hfail : body.status = some "failed" →
      check_job_status job_id (.ok body) =
        .error (.bedrockError ("예상치 못한 오류: "
            ++ ("비디오 생성 작업 실패: " ++ body.errorMessage.getD "알 수 없는 오류"))) := by
    intro h
    simp [check_job_status, check_job_status_inner, hid, h, handle_common_errors, pyStr]
  have hok : body.status ≠ some "failed" → check_job_status job_id (.ok body) = .ok body := by
    intro h
    simp [check_job_status, check_job_status_inner, hid, h, handle_common_errors]
  refine ⟨hfail, hok, ⟨?_, fun h => ⟨_, hfail h⟩⟩, fun h => hok (by rw [h]; simp)⟩
  rintro ⟨e, he⟩
  by_contra hne
  rw [hok hne] at he
  exact absurd he (by simp)

/-- Witness for C10: a failed response raises the wrapped domain error;
an expired response is returned unchanged. -/
theorem c10_witness :
    check_job_status "job-1" (.ok ⟨some "failed", some "boom"⟩) =
        .error (.bedrockError "예상치 못한 오류: 비디오 생성 작업 실패: boom") ∧
    check_job_status "job-1" (.ok ⟨some "expired", some "boom"⟩) =
        .ok ⟨some "expired", some "boom"⟩ :=
  ⟨(c10_check_job_status_raises_iff_failed "job-1" ⟨some "failed", some "boom"⟩ (by decide)).1 rfl,
   (c10_check_job_status_raises_iff_failed "job-1" ⟨some "expired", some "boom"⟩
      (by decide)).2.2.2 rfl⟩

end GenerateVideoBedrock
